import Mathlib

/-!
# Verification of the Distro-Media-News-Agent backend core

Shallow embedding of `src/backend/news_agent_python.py`: the TTL cache in
`NewsAgentAPI`, the rule-based intent classifier, request processing with
conversation history, preference merge, the publication → NewsAPI source
alias table, and the per-user session store.  Provider HTTP calls and the
OpenAI chat call are modelled as injected functions returning
`Except String (List Article)` / `Except String String`.
-/

namespace NewsAgent

/-- Python `str.lower()` restricted to the characters the rule tables use. -/
def pyLower (s : String) : String := String.mk (s.toList.map Char.toLower)

/-- Python `pat in s` substring test. -/
def containsSub (s pat : String) : Bool :=
  (List.range (s.toList.length + 1)).any
    (fun i => pat.toList.isPrefixOf (s.toList.drop i))

/-- Lookup in an association list modelling a Python `dict` (unique keys). -/
def lookupA {α : Type} : List (String × α) → String → Option α
  | [], _ => none
  | (k', v) :: rest, k => if k' = k then some v else lookupA rest k

/-- `d[k] = v` on an association list modelling a Python `dict`. -/
def insertA {α : Type} : List (String × α) → String → α → List (String × α)
  | [], k, v => [(k, v)]
  | (k', v') :: rest, k, v =>
      if k' = k then (k, v) :: rest else (k', v') :: insertA rest k v

/-- A normalized article record, as built by the transform steps in
`news_agent_python.py` (all provider fields are optional). -/
structure Article where
  title : Option String := none
  description : Option String := none
  url : Option String := none
  imageUrl : Option String := none
  source : Option String := none
  publishedAt : Option String := none
  content : Option String := none
deriving Repr, DecidableEq

/-- The intent dictionary returned by `NewsAgent.detect_intent`. -/
inductive Intent where
  | fetch_headlines
  | fetch_specific_publication (publication : String)
  | fetch_topic (topic : String)
  | update_preferences
  | discussion
deriving Repr, DecidableEq

/-- Headline trigger phrases (line 714 of the source). -/
def headline_phrases : List String := ["latest headlines", "top news", "breaking news"]

/-- Known publications list (line 718). -/
def publications : List String :=
  ["wall street journal", "new york times", "washington post", "cnn", "bbc", "fox news"]

/-- Topic categories list (line 724). -/
def topics : List String :=
  ["politics", "business", "technology", "health", "science", "sports", "entertainment"]

/-- Specific event/location keywords (line 730). -/
def specific_keywords : List String := ["ukraine", "election", "covid", "climate"]

/-- Preference-update trigger words (line 736). -/
def preference_words : List String := ["preferences", "settings", "configure"]

/-- `NewsAgent.detect_intent` (lines 700–740): lower-case the input, then test
the rule tables in order; the first matching rule wins. -/
def detect_intent (user_input : String) : Intent :=
  let input_lower := pyLower user_input
  if headline_phrases.any (fun p => containsSub input_lower p) then
    .fetch_headlines
  else
    match publications.find? (fun p => containsSub input_lower p) with
    | some pub => .fetch_specific_publication pub
    | none =>
      match topics.find? (fun t => containsSub input_lower t) with
      | some t => .fetch_topic t
      | none =>
        match specific_keywords.find? (fun k => containsSub input_lower k) with
        | some k => .fetch_topic k
        | none =>
          if preference_words.any (fun w => containsSub input_lower w) then
            .update_preferences
          else
            .discussion

/-- The alias table of `NewsAgentAPI.map_publication_to_news_api_source`
(lines 307–322). -/
def news_api_source_mapping : List (String × String) :=
  [("wall street journal", "the-wall-street-journal"),
   ("wsj", "the-wall-street-journal"),
   ("new york times", "the-new-york-times"),
   ("nyt", "the-new-york-times"),
   ("washington post", "the-washington-post"),
   ("cnn", "cnn"),
   ("bbc", "bbc-news"),
   ("bbc news", "bbc-news"),
   ("fox news", "fox-news"),
   ("nbc news", "nbc-news"),
   ("abc news", "abc-news"),
   ("reuters", "reuters"),
   ("associated press", "associated-press"),
   ("ap", "associated-press")]

/-- `NewsAgentAPI.map_publication_to_news_api_source` (lines 296–325):
lower-case, look up the alias table, default to the lower-cased name. -/
def map_publication_to_news_api_source (publication : String) : String :=
  let pub_lower := pyLower publication
  (lookupA news_api_source_mapping pub_lower).getD pub_lower

/-- One conversation-history element `{"role": ..., "content": ...}`. -/
structure Turn where
  role : String
  content : String
deriving Repr, DecidableEq

/-- One entry of a `NewsAgentAPI.cache` sub-dict: timestamp plus payload. -/
structure CacheEntry where
  timestamp : Nat
  data : List Article
deriving Repr, DecidableEq

/-- Python truthiness of an optional API-key string (`if self.news_api_key:`). -/
def truthy : Option String → Bool
  | none => false
  | some s => s ≠ ""

/-- `NewsAgentAPI` instance state: the three provider keys and the cache
dict with its `headlines` / `topics` / `publications` sub-dicts. -/
structure APIState where
  news_api_key : Option String
  nyt_api_key : Option String
  guardian_api_key : Option String
  headlinesCache : List (String × CacheEntry)
  topicsCache : List (String × CacheEntry)
  publicationsCache : List (String × CacheEntry)
deriving Repr, DecidableEq

/-- `NewsAgentAPI.cache_duration` (line 70): 30 minutes, in seconds. -/
def cache_duration : Nat := 30 * 60

/-- `NewsAgentAPI.__init__` (lines 57–70): keys from the environment, all
three cache sub-dicts empty. -/
def NewsAgentAPI_init (news nyt guardian : Option String) : APIState :=
  ⟨news, nyt, guardian, [], [], []⟩

/-- The cache-hit test used by every fetch entry point:
`key in cache and now - cache[key]['timestamp'] < cache_duration`. -/
def liveEntry (c : List (String × CacheEntry)) (key : String) (now : Nat) :
    Option (List Article) :=
  match lookupA c key with
  | some e => if now - e.timestamp < cache_duration then some e.data else none
  | none => none

/-- The external collaborators: each field stands for one provider HTTP call
(request plus the in-function normalization of its JSON into `Article`), or
the OpenAI chat call; `.error` models a raised exception. -/
structure Providers where
  fetchNewsHeadlines : String → String → Except String (List Article)
  fetchNytTop : String → Except String (List Article)
  fetchNewsEverything : String → String → Except String (List Article)
  fetchNytSearch : String → Except String (List Article)
  fetchNytHome : Except String (List Article)
  fetchGuardian : Except String (List Article)
  searchSource : String → Except String (List Article)
  chatCompletion : List Turn → String → Except String String
  openai_api_key : Option String

/-- Result of a `NewsAgentAPI` fetch entry point: the returned value or the
raised exception's message, the updated instance state, and the number of
provider fetches that were invoked. -/
structure FetchOut where
  result : Except String (List Article)
  state : APIState
  calls : Nat

/-- The category → NYT-section table of `_map_category_to_nyt_section`
(lines 329–339). -/
def nyt_section_mapping : List (String × String) :=
  [("business", "business"), ("technology", "technology"),
   ("politics", "politics"), ("science", "science"), ("health", "health"),
   ("sports", "sports"), ("arts", "arts"), ("world", "world"), ("us", "us")]

/-- `NewsAgentAPI._map_category_to_nyt_section` (lines 327–340). -/
def map_category_to_nyt_section (category : String) : String :=
  (lookupA nyt_section_mapping (pyLower category)).getD "home"

/-- `NewsAgentAPI.fetch_from_nyt_top_stories` (lines 379–417): empty result
when the NYT key is absent, else the provider call, wrapping a raised error. -/
def fetch_from_nyt_top_stories (nyt_api_key : Option String) (P : Providers)
    (sectionName : String) : Except String (List Article) × Nat :=
  if truthy nyt_api_key then
    match P.fetchNytTop sectionName with
    | .ok articles => (.ok articles, 1)
    | .error _ => (.error ("Failed to fetch from NYT section " ++ sectionName), 1)
  else (.ok [], 0)

/-- `NewsAgentAPI.search_nyt_articles` (lines 419–459). -/
def search_nyt_articles (nyt_api_key : Option String) (P : Providers)
    (query : String) : Except String (List Article) × Nat :=
  if truthy nyt_api_key then
    match P.fetchNytSearch query with
    | .ok articles => (.ok articles, 1)
    | .error _ => (.error "Failed to search NYT articles", 1)
  else (.ok [], 0)

/-- `NewsAgentAPI.fetch_from_nyt` (lines 342–377). -/
def fetch_from_nyt (nyt_api_key : Option String) (P : Providers) :
    Except String (List Article) × Nat :=
  if truthy nyt_api_key then
    match P.fetchNytHome with
    | .ok articles => (.ok articles, 1)
    | .error _ => (.error "Failed to fetch from The New York Times", 1)
  else (.ok [], 0)

/-- `NewsAgentAPI.fetch_from_guardian` (lines 494–531). -/
def fetch_from_guardian (guardian_api_key : Option String) (P : Providers) :
    Except String (List Article) × Nat :=
  if truthy guardian_api_key then
    match P.fetchGuardian with
    | .ok articles => (.ok articles, 1)
    | .error _ => (.error "Failed to fetch from The Guardian", 1)
  else (.ok [], 0)

/-- `NewsAgentAPI.search_news_by_source` (lines 255–294): NewsAPI search by
the mapped source id, empty result when the NewsAPI key is absent. -/
def search_news_by_source (news_api_key : Option String) (P : Providers)
    (source : String) : Except String (List Article) × Nat :=
  if truthy news_api_key then
    match P.searchSource (map_publication_to_news_api_source source) with
    | .ok articles => (.ok articles, 1)
    | .error _ => (.error ("Failed to search news from " ++ source), 1)
  else (.ok [], 0)

/-- `NewsAgentAPI.get_top_headlines` (lines 72–140): cache check on key
`country + "-" + category`, then NewsAPI if its key is set, else NYT top
stories, else an empty (successful) result; the cache is updated only after
a successful fetch, and a raised error propagates with the state unchanged. -/
def get_top_headlines (st : APIState) (now : Nat) (P : Providers)
    (country : String) (category : String) : FetchOut :=
  let cache_key := country ++ "-" ++ category
  match liveEntry st.headlinesCache cache_key now with
  | some data => ⟨.ok data, st, 0⟩
  | none =>
    if truthy st.news_api_key then
      match P.fetchNewsHeadlines country category with
      | .ok headlines =>
          ⟨.ok headlines,
           { st with headlinesCache :=
               insertA st.headlinesCache cache_key ⟨now, headlines⟩ }, 1⟩
      | .error e => ⟨.error ("Failed to fetch headlines: " ++ e), st, 1⟩
    else if truthy st.nyt_api_key then
      let nyt_section :=
        if category = "" then "home" else map_category_to_nyt_section category
      match fetch_from_nyt_top_stories st.nyt_api_key P nyt_section with
      | (.ok headlines, n) =>
          ⟨.ok headlines,
           { st with headlinesCache :=
               insertA st.headlinesCache cache_key ⟨now, headlines⟩ }, n⟩
      | (.error e, n) => ⟨.error ("Failed to fetch headlines: " ++ e), st, n⟩
    else ⟨.ok [], st, 0⟩

/-- `NewsAgentAPI.get_news_by_topic` (lines 186–253): cache check on the
lower-cased topic, NewsAPI full-text search first, NYT article search as
fallback, empty result with no keys. -/
def get_news_by_topic (st : APIState) (now : Nat) (P : Providers)
    (topic : String) (language : String) : FetchOut :=
  let topic_lower := pyLower topic
  match liveEntry st.topicsCache topic_lower now with
  | some data => ⟨.ok data, st, 0⟩
  | none =>
    if truthy st.news_api_key then
      match P.fetchNewsEverything topic language with
      | .ok articles =>
          ⟨.ok articles,
           { st with topicsCache :=
               insertA st.topicsCache topic_lower ⟨now, articles⟩ }, 1⟩
      | .error _ => ⟨.error ("Failed to fetch news about " ++ topic), st, 1⟩
    else if truthy st.nyt_api_key then
      match search_nyt_articles st.nyt_api_key P topic with
      | (.ok articles, n) =>
          ⟨.ok articles,
           { st with topicsCache :=
               insertA st.topicsCache topic_lower ⟨now, articles⟩ }, n⟩
      | (.error _, n) => ⟨.error ("Failed to fetch news about " ++ topic), st, n⟩
    else ⟨.ok [], st, 0⟩

/-- The publication-specific dispatch of `get_from_publication`
(lines 160–173): NYT / Guardian aliases route to their dedicated APIs, all
other names to the NewsAPI source search. -/
def publication_dispatch (st : APIState) (P : Providers) (publication : String) :
    Except String (List Article) × Nat :=
  let pub_lower := pyLower publication
  if pub_lower = "new york times" ∨ pub_lower = "nyt" then
    fetch_from_nyt st.nyt_api_key P
  else if pub_lower = "the guardian" ∨ pub_lower = "guardian" then
    fetch_from_guardian st.guardian_api_key P
  else
    search_news_by_source st.news_api_key P publication

/-- `NewsAgentAPI.get_from_publication` (lines 142–184): cache check on the
lower-cased name, then the publication-specific dispatch. -/
def get_from_publication (st : APIState) (now : Nat) (P : Providers)
    (publication : String) : FetchOut :=
  let pub_lower := pyLower publication
  match liveEntry st.publicationsCache pub_lower now with
  | some data => ⟨.ok data, st, 0⟩
  | none =>
    match publication_dispatch st P publication with
    | (.ok articles, n) =>
        ⟨.ok articles,
         { st with publicationsCache :=
             insertA st.publicationsCache pub_lower ⟨now, articles⟩ }, n⟩
    | (.error _, n) => ⟨.error ("Failed to fetch news from " ++ publication), st, n⟩

/-- A sample article for exercising the model on concrete inputs. -/
def sampleArticle : Article :=
  { title := some "Sample headline", source := some "Sample Source" }

/-- A concrete provider assignment whose news fetches all return `h`,
used to exercise the model on concrete inputs. -/
def testProviders (h : Except String (List Article)) : Providers :=
  { fetchNewsHeadlines := fun _ _ => h
    fetchNytTop := fun _ => h
    fetchNewsEverything := fun _ _ => h
    fetchNytSearch := fun _ => h
    fetchNytHome := h
    fetchGuardian := h
    searchSource := fun _ => h
    chatCompletion := fun _ _ => .error "OpenAI API key not configured"
    openai_api_key := none }

/-- The user-preferences dict (`NewsAgent.__init__`, lines 624–629). -/
structure Preferences where
  favorite_topics : List String
  favorite_publications : List String
  update_frequency : String
  region : String
deriving Repr, DecidableEq

/-- The default preferences of a fresh `NewsAgent` (lines 624–629). -/
def default_preferences : Preferences :=
  ⟨[], [], "daily", "global"⟩

/-- A preferences-update payload: a dict carrying any subset of the keys. -/
structure PrefUpdate where
  favorite_topics : Option (List String) := none
  favorite_publications : Option (List String) := none
  update_frequency : Option String := none
  region : Option String := none
deriving Repr, DecidableEq

/-- `self.user_preferences.update(preferences)` (line 841): shallow merge —
keys present in the update replace prior values, absent keys are untouched. -/
def mergePreferences (p : Preferences) (u : PrefUpdate) : Preferences :=
  { favorite_topics := u.favorite_topics.getD p.favorite_topics
    favorite_publications := u.favorite_publications.getD p.favorite_publications
    update_frequency := u.update_frequency.getD p.update_frequency
    region := u.region.getD p.region }

/-- `NewsAgent` instance state (lines 618–631). -/
structure AgentState where
  user_preferences : Preferences
  conversation_history : List Turn
  api : APIState
deriving Repr, DecidableEq

/-- `NewsAgent.__init__` (lines 623–631): default preferences, empty
history, a fresh `NewsAgentAPI` built from the environment keys. -/
def NewsAgent_init (news nyt guardian : Option String) : AgentState :=
  ⟨default_preferences, [], NewsAgentAPI_init news nyt guardian⟩

/-- Python truthiness of `article.get('title')` in the title list
comprehensions: the title must be present and non-empty. -/
def usableTitle (a : Article) : Option String :=
  match a.title with
  | some t => if t = "" then none else some t
  | none => none

/-- Python `", ".join(l)`. -/
def joinComma (l : List String) : String := String.intercalate ", " l

/-- `NewsAgent.handle_headlines_request` (lines 742–766): resolve the region
preference ("global" → "us"), fetch headlines, and compose the reply from at
most the first 5 articles' truthy titles; any raised error becomes the fixed
apology. -/
def handle_headlines_request (st : AgentState) (now : Nat) (P : Providers) :
    String × AgentState :=
  let region := st.user_preferences.region
  let region := if region = "global" then "us" else region
  let out := get_top_headlines st.api now P region ""
  let response :=
    match out.result with
    | .ok headlines =>
        let headline_titles := (headlines.take 5).filterMap usableTitle
        if headline_titles ≠ [] then
          "Here are today's top headlines:\n" ++
            String.intercalate "\n" headline_titles
        else
          "I'm sorry, I couldn't find any headlines at the moment. Please try again later."
    | .error _ =>
        "I'm sorry, I couldn't fetch the latest headlines right now. Please try again later."
  (response, { st with api := out.state })

/-- `NewsAgent.handle_topic_request` (lines 790–810). -/
def handle_topic_request (st : AgentState) (now : Nat) (P : Providers)
    (topic : String) : String × AgentState :=
  let out := get_news_by_topic st.api now P topic "en"
  let response :=
    match out.result with
    | .ok articles =>
        let article_titles := (articles.take 5).filterMap usableTitle
        if article_titles ≠ [] then
          "Here are the latest articles about " ++ topic ++ ":\n" ++
            String.intercalate "\n" article_titles
        else
          "I'm sorry, I couldn't find any recent articles about " ++ topic ++
            ". Please try another topic or try again later."
    | .error _ =>
        "I'm sorry, I couldn't fetch articles about " ++ topic ++
          " right now. Please try again later."
  (response, { st with api := out.state })

/-- `NewsAgent.handle_publication_request` (lines 768–788). -/
def handle_publication_request (st : AgentState) (now : Nat) (P : Providers)
    (publication : String) : String × AgentState :=
  let out := get_from_publication st.api now P publication
  let response :=
    match out.result with
    | .ok articles =>
        let article_titles := (articles.take 5).filterMap usableTitle
        if article_titles ≠ [] then
          "Here are the latest articles from " ++ publication ++ ":\n" ++
            String.intercalate "\n" article_titles
        else
          "I'm sorry, I couldn't find any recent articles from " ++ publication ++
            ". Please try another publication or try again later."
    | .error _ =>
        "I'm sorry, I couldn't fetch articles from " ++ publication ++
          " right now. Please try again later."
  (response, { st with api := out.state })

/-- `NewsAgentAPI.generate_conversational_response` (lines 568–615). -/
def generate_conversational_response (P : Providers) (user_input : String)
    (conversation_history : List Turn) : Except String String :=
  if truthy P.openai_api_key then
    match P.chatCompletion conversation_history user_input with
    | .ok s => .ok s
    | .error _ => .error "Failed to generate conversational response"
  else .error "OpenAI API key not configured"

/-- `NewsAgent.discuss_news` (lines 812–829): the OpenAI call, with any
raised error replaced by the fixed stock discussion sentence. -/
def discuss_news (st : AgentState) (P : Providers) (user_input : String) :
    String × AgentState :=
  let response :=
    match generate_conversational_response P user_input st.conversation_history with
    | .ok s => s
    | .error _ =>
        "I'd be happy to discuss this topic. Based on recent news, there have been several developments in this area. What specific aspect would you like to know more about?"
  (response, st)

/-- `NewsAgent.update_user_preferences` (lines 831–862): shallow-merge the
payload into the preferences and build the confirmation message from the
keys present in the payload. -/
def update_user_preferences (st : AgentState) (preferences : PrefUpdate) :
    String × AgentState :=
  let newPrefs := mergePreferences st.user_preferences preferences
  let s1 := match preferences.favorite_topics with
    | some ts => if ts ≠ [] then ["favorite topics: " ++ joinComma ts] else []
    | none => []
  let s2 := match preferences.favorite_publications with
    | some ps => if ps ≠ [] then ["favorite publications: " ++ joinComma ps] else []
    | none => []
  let s3 := match preferences.region with
    | some r => ["region: " ++ r]
    | none => []
  let s4 := match preferences.update_frequency with
    | some f => ["update frequency: " ++ f]
    | none => []
  let preferences_summary := s1 ++ s2 ++ s3 ++ s4
  let msg :=
    if preferences_summary ≠ [] then
      "Your news preferences have been updated. I'll focus on " ++
        joinComma preferences_summary ++ "."
    else
      "Your news preferences have been updated."
  (msg, { st with user_preferences := newPrefs })

/-- `NewsAgent.process_request` (lines 660–698): append the user turn,
classify, dispatch on the intent (every handler converts its own errors to a
reply string, so the surrounding `except` never fires), then append the
assistant turn; always returns a reply. -/
def process_request (st : AgentState) (now : Nat) (P : Providers)
    (user_input : String) : String × AgentState :=
  let st₁ := { st with conversation_history :=
                 st.conversation_history ++ [⟨"user", user_input⟩] }
  let dispatched :=
    match detect_intent user_input with
    | .fetch_headlines => handle_headlines_request st₁ now P
    | .fetch_specific_publication pub => handle_publication_request st₁ now P pub
    | .fetch_topic topic => handle_topic_request st₁ now P topic
    | .discussion => discuss_news st₁ P user_input
    | .update_preferences => update_user_preferences st₁ {}
  (dispatched.1,
   { dispatched.2 with conversation_history :=
       dispatched.2.conversation_history ++ [⟨"assistant", dispatched.1⟩] })

/-- `get_user_session` over the module-level `user_sessions` dict
(lines 865–881): look up the user, lazily creating a fresh `NewsAgent` from
the environment keys on first reference. -/
def get_user_session (sessions : List (String × AgentState))
    (news nyt guardian : Option String) (user_id : String) :
    AgentState × List (String × AgentState) :=
  match lookupA sessions user_id with
  | some s => (s, sessions)
  | none =>
      let s := NewsAgent_init news nyt guardian
      (s, insertA sessions user_id s)

/-- Route `GET /api/history/<user_id>` (lines 1041–1056): return the
session's conversation history, creating the session if absent. -/
def get_history (sessions : List (String × AgentState))
    (news nyt guardian : Option String) (user_id : String) :
    List Turn × List (String × AgentState) :=
  let r := get_user_session sessions news nyt guardian user_id
  (r.1.conversation_history, r.2)

/-- Route `DELETE /api/history/<user_id>` (lines 1059–1075): reset the
session's history to empty and return the confirmation message. -/
def clear_history (sessions : List (String × AgentState))
    (news nyt guardian : Option String) (user_id : String) :
    String × List (String × AgentState) :=
  let r := get_user_session sessions news nyt guardian user_id
  ("Conversation history cleared",
   insertA r.2 user_id { r.1 with conversation_history := [] })

end NewsAgent

namespace NewsAgent

/-- Looking up the key just inserted yields the inserted value. -/
theorem lookupA_insertA_self {α : Type} (l : List (String × α)) (k : String) (v : α) :
    lookupA (insertA l k v) k = some v := by
  induction l with
  | nil => simp [insertA, lookupA]
  | cons hd tl ih =>
      obtain ⟨k', v'⟩ := hd
      simp only [insertA]
      by_cases h : k' = k
      · simp [h, lookupA]
      · simp [lookupA, h, ih]

/-- A cache entry dead (absent or expired) at time `t` stays dead at any
later time `t₂`. -/
theorem liveEntry_none_mono (c : List (String × CacheEntry)) (k : String)
    (t t₂ : Nat) (h : t ≤ t₂) (hnone : liveEntry c k t = none) :
    liveEntry c k t₂ = none := by
  unfold liveEntry at *
  cases hl : lookupA c k with
  | none => simp
  | some e =>
      rw [hl] at hnone
      simp only at hnone ⊢
      split at hnone
      · exact absurd hnone (by simp)
      · next hdead =>
          have h1 : cache_duration ≤ t - e.timestamp := Nat.le_of_not_lt hdead
          have h2 : t - e.timestamp ≤ t₂ - e.timestamp := Nat.sub_le_sub_right h _
          rw [if_neg (Nat.not_lt.mpr (le_trans h1 h2))]

/-- C2: any input that contains (case-insensitively) a publication from the
fixed list and a topic or event keyword, but no headline trigger phrase, is
classified as `fetch_specific_publication` carrying a matched publication
name — never as `fetch_topic`. -/
theorem detect_intent_publication_precedes_topic (input : String)
    (hpub : ∃ p ∈ publications, containsSub (pyLower input) p = true)
    (_htop : ∃ k ∈ topics ++ specific_keywords, containsSub (pyLower input) k = true)
    (hnohead : ∀ h ∈ headline_phrases, containsSub (pyLower input) h = false) :
    ∃ pub ∈ publications,
      detect_intent input = .fetch_specific_publication pub ∧
      containsSub (pyLower input) pub = true := by
  have hany : headline_phrases.any (fun p => containsSub (pyLower input) p) = false := by
    simp only [List.any_eq_false]
    intro h hh
    simp [hnohead h hh]
  have hfind : (publications.find? (fun p => containsSub (pyLower input) p)).isSome := by
    rw [List.find?_isSome]
    obtain ⟨p, hp, hcp⟩ := hpub
    exact ⟨p, hp, hcp⟩
  obtain ⟨pub, hpubEq⟩ := Option.isSome_iff_exists.mp hfind
  refine ⟨pub, List.mem_of_find?_eq_some hpubEq, ?_, List.find?_some hpubEq⟩
  unfold detect_intent
  simp only [hany, Bool.false_eq_true, if_false, hpubEq]

/-- Witness for C2 at the concrete input "tell me about politics in the cnn". -/
theorem detect_intent_publication_precedes_topic_witness :
    ∃ pub ∈ publications,
      detect_intent "tell me about politics in the cnn" = .fetch_specific_publication pub ∧
      containsSub (pyLower "tell me about politics in the cnn") pub = true :=
  detect_intent_publication_precedes_topic "tell me about politics in the cnn"
    (by refine ⟨"cnn", by decide, by decide⟩)
    (by refine ⟨"politics", by decide, by decide⟩)
    (by decide)

/-- C7: the publication → source-id map is case-insensitive on the alias table
("WSJ" and "wsj" both map to "the-wall-street-journal"), and any name whose
lower-casing is absent from the table passes through lower-cased unchanged. -/
theorem map_publication_case_insensitive_and_identity_off_table :
    map_publication_to_news_api_source "WSJ" = "the-wall-street-journal" ∧
    map_publication_to_news_api_source "wsj" = "the-wall-street-journal" ∧
    ∀ name : String, lookupA news_api_source_mapping (pyLower name) = none →
      map_publication_to_news_api_source name = pyLower name := by
  refine ⟨by decide, by decide, ?_⟩
  intro name hnone
  simp only [map_publication_to_news_api_source, hnone, Option.getD_none]

/-- Witness for C7's unmapped-name clause at the concrete input "My Blog". -/
theorem map_publication_case_insensitive_and_identity_off_table_witness :
    map_publication_to_news_api_source "My Blog" = pyLower "My Blog" :=
  map_publication_case_insensitive_and_identity_off_table.2.2 "My Blog" (by decide)

/-- Looking up the key just inserted as a cache entry `⟨t, d⟩` is live exactly
when `t' - t` is below the ttl. -/
theorem liveEntry_insertA_self (c : List (String × CacheEntry)) (k : String)
    (t : Nat) (d : List Article) (t' : Nat) :
    liveEntry (insertA c k ⟨t, d⟩) k t' =
      if t' - t < cache_duration then some d else none := by
  unfold liveEntry
  rw [lookupA_insertA_self]

/-- `publication_dispatch` reads only the key fields, so replacing the
publications cache leaves it unchanged. -/
theorem publication_dispatch_cache_irrelevant (st : APIState)
    (c : List (String × CacheEntry)) (P : Providers) (publication : String) :
    publication_dispatch { st with publicationsCache := c } P publication =
      publication_dispatch st P publication := rfl

/-- C1: for every request shape (headlines, topic, publication), after a
successful fetch stores a cache entry for the shape's key at time `t`, a
call for the same key strictly inside the 30-minute ttl returns the stored
payload with zero provider invocations (for any provider assignment), while
a call at or beyond the ttl invokes the fetch again and replaces the entry
with the fresh payload timestamped at the new time. -/
theorem cache_ttl_policy (st : APIState) (t : Nat) (P : Providers)
    (country category topic language publication : String)
    (data dataT dataP : List Article)
    (hkey : truthy st.news_api_key = true)
    (hlive : liveEntry st.headlinesCache (country ++ "-" ++ category) t = none)
    (hfetch : P.fetchNewsHeadlines country category = .ok data)
    (hliveT : liveEntry st.topicsCache (pyLower topic) t = none)
    (hfetchT : P.fetchNewsEverything topic language = .ok dataT)
    (hliveP : liveEntry st.publicationsCache (pyLower publication) t = none)
    (hfetchP : publication_dispatch st P publication = (.ok dataP, 1)) :
    (get_top_headlines st t P country category).result = .ok data ∧
    (get_top_headlines st t P country category).calls = 1 ∧
    (∀ (t' : Nat) (P' : Providers), t' - t < cache_duration →
      get_top_headlines (get_top_headlines st t P country category).state
          t' P' country category =
        ⟨.ok data, (get_top_headlines st t P country category).state, 0⟩) ∧
    (∀ (t' : Nat) (P₂ : Providers) (d₂ : List Article),
      cache_duration ≤ t' - t →
      P₂.fetchNewsHeadlines country category = .ok d₂ →
      (get_top_headlines (get_top_headlines st t P country category).state
          t' P₂ country category).result = .ok d₂ ∧
      (get_top_headlines (get_top_headlines st t P country category).state
          t' P₂ country category).calls = 1 ∧
      lookupA (get_top_headlines (get_top_headlines st t P country category).state
          t' P₂ country category).state.headlinesCache
        (country ++ "-" ++ category) = some ⟨t', d₂⟩) ∧
    (get_news_by_topic st t P topic language).result = .ok dataT ∧
    (get_news_by_topic st t P topic language).calls = 1 ∧
    (∀ (t' : Nat) (P' : Providers), t' - t < cache_duration →
      get_news_by_topic (get_news_by_topic st t P topic language).state
          t' P' topic language =
        ⟨.ok dataT, (get_news_by_topic st t P topic language).state, 0⟩) ∧
    (∀ (t' : Nat) (P₂ : Providers) (d₂ : List Article),
      cache_duration ≤ t' - t →
      P₂.fetchNewsEverything topic language = .ok d₂ →
      (get_news_by_topic (get_news_by_topic st t P topic language).state
          t' P₂ topic language).result = .ok d₂ ∧
      (get_news_by_topic (get_news_by_topic st t P topic language).state
          t' P₂ topic language).calls = 1 ∧
      lookupA (get_news_by_topic (get_news_by_topic st t P topic language).state
          t' P₂ topic language).state.topicsCache
        (pyLower topic) = some ⟨t', d₂⟩) ∧
    (get_from_publication st t P publication).result = .ok dataP ∧
    (get_from_publication st t P publication).calls = 1 ∧
    (∀ (t' : Nat) (P' : Providers), t' - t < cache_duration →
      get_from_publication (get_from_publication st t P publication).state
          t' P' publication =
        ⟨.ok dataP, (get_from_publication st t P publication).state, 0⟩) ∧
    (∀ (t' : Nat) (P₂ : Providers) (d₂ : List Article),
      cache_duration ≤ t' - t →
      publication_dispatch st P₂ publication = (.ok d₂, 1) →
      (get_from_publication (get_from_publication st t P publication).state
          t' P₂ publication).result = .ok d₂ ∧
      (get_from_publication (get_from_publication st t P publication).state
          t' P₂ publication).calls = 1 ∧
      lookupA (get_from_publication (get_from_publication st t P publication).state
          t' P₂ publication).state.publicationsCache
        (pyLower publication) = some ⟨t', d₂⟩) := by
  have hfirst : get_top_headlines st t P country category =
      ⟨.ok data,
       { st with headlinesCache :=
           insertA st.headlinesCache (country ++ "-" ++ category) ⟨t, data⟩ }, 1⟩ := by
    simp [get_top_headlines, hlive, hkey, hfetch]
  have hfirstT : get_news_by_topic st t P topic language =
      ⟨.ok dataT,
       { st with topicsCache :=
           insertA st.topicsCache (pyLower topic) ⟨t, dataT⟩ }, 1⟩ := by
    simp [get_news_by_topic, hliveT, hkey, hfetchT]
  have hfirstP : get_from_publication st t P publication =
      ⟨.ok dataP,
       { st with publicationsCache :=
           insertA st.publicationsCache (pyLower publication) ⟨t, dataP⟩ }, 1⟩ := by
    simp [get_from_publication, hliveP, hfetchP]
  refine ⟨by rw [hfirst], by rw [hfirst], ?_, ?_,
          by rw [hfirstT], by rw [hfirstT], ?_, ?_,
          by rw [hfirstP], by rw [hfirstP], ?_, ?_⟩
  · intro t' P' hlt
    rw [hfirst]
    simp [get_top_headlines, liveEntry_insertA_self, hlt]
  · intro t' P₂ d₂ hge hfetch₂
    rw [hfirst]
    have hmiss : liveEntry
        (insertA st.headlinesCache (country ++ "-" ++ category) ⟨t, data⟩)
        (country ++ "-" ++ category) t' = none := by
      rw [liveEntry_insertA_self, if_neg (Nat.not_lt.mpr hge)]
    refine ⟨?_, ?_, ?_⟩ <;>
      simp [get_top_headlines, hmiss, hkey, hfetch₂, lookupA_insertA_self]
  · intro t' P' hlt
    rw [hfirstT]
    simp [get_news_by_topic, liveEntry_insertA_self, hlt]
  · intro t' P₂ d₂ hge hfetch₂
    rw [hfirstT]
    have hmiss : liveEntry
        (insertA st.topicsCache (pyLower topic) ⟨t, dataT⟩)
        (pyLower topic) t' = none := by
      rw [liveEntry_insertA_self, if_neg (Nat.not_lt.mpr hge)]
    refine ⟨?_, ?_, ?_⟩ <;>
      simp [get_news_by_topic, hmiss, hkey, hfetch₂, lookupA_insertA_self]
  · intro t' P' hlt
    rw [hfirstP]
    simp [get_from_publication, liveEntry_insertA_self, hlt]
  · intro t' P₂ d₂ hge hfetch₂
    rw [hfirstP]
    have hmiss : liveEntry
        (insertA st.publicationsCache (pyLower publication) ⟨t, dataP⟩)
        (pyLower publication) t' = none := by
      rw [liveEntry_insertA_self, if_neg (Nat.not_lt.mpr hge)]
    refine ⟨?_, ?_, ?_⟩ <;>
      simp [get_from_publication, hmiss,
            publication_dispatch_cache_irrelevant, hfetch₂, lookupA_insertA_self]

/-- Witness for C1: with a key configured and empty caches, the headline,
topic, and publication fetches at time 0 all succeed; re-reads at second
1799 are served from the cache with no provider call; re-reads at second
1800 fetch again and restamp. -/
theorem cache_ttl_policy_witness :
    (get_top_headlines (NewsAgentAPI_init (some "k") none none) 0
        (testProviders (.ok [sampleArticle])) "us" "").result = .ok [sampleArticle] ∧
    (get_top_headlines
        (get_top_headlines (NewsAgentAPI_init (some "k") none none) 0
          (testProviders (.ok [sampleArticle])) "us" "").state
        1799 (testProviders (.error "down")) "us" "" =
      ⟨.ok [sampleArticle],
       (get_top_headlines (NewsAgentAPI_init (some "k") none none) 0
          (testProviders (.ok [sampleArticle])) "us" "").state, 0⟩) ∧
    (get_top_headlines
        (get_top_headlines (NewsAgentAPI_init (some "k") none none) 0
          (testProviders (.ok [sampleArticle])) "us" "").state
        1800 (testProviders (.ok [])) "us" "").result = .ok [] ∧
    (get_news_by_topic
        (get_news_by_topic (NewsAgentAPI_init (some "k") none none) 0
          (testProviders (.ok [sampleArticle])) "Tech" "en").state
        1799 (testProviders (.error "down")) "Tech" "en" =
      ⟨.ok [sampleArticle],
       (get_news_by_topic (NewsAgentAPI_init (some "k") none none) 0
          (testProviders (.ok [sampleArticle])) "Tech" "en").state, 0⟩) ∧
    (get_news_by_topic
        (get_news_by_topic (NewsAgentAPI_init (some "k") none none) 0
          (testProviders (.ok [sampleArticle])) "Tech" "en").state
        1800 (testProviders (.ok [])) "Tech" "en").result = .ok [] ∧
    (get_from_publication
        (get_from_publication (NewsAgentAPI_init (some "k") none none) 0
          (testProviders (.ok [sampleArticle])) "CNN").state
        1799 (testProviders (.error "down")) "CNN" =
      ⟨.ok [sampleArticle],
       (get_from_publication (NewsAgentAPI_init (some "k") none none) 0
          (testProviders (.ok [sampleArticle])) "CNN").state, 0⟩) ∧
    (get_from_publication
        (get_from_publication (NewsAgentAPI_init (some "k") none none) 0
          (testProviders (.ok [sampleArticle])) "CNN").state
        1800 (testProviders (.ok [])) "CNN").result = .ok [] := by
  have h := cache_ttl_policy (NewsAgentAPI_init (some "k") none none) 0
    (testProviders (.ok [sampleArticle])) "us" "" "Tech" "en" "CNN"
    [sampleArticle] [sampleArticle] [sampleArticle]
    (by decide) (by decide) rfl (by decide) rfl (by decide) rfl
  exact ⟨h.1, h.2.2.1 1799 (testProviders (.error "down")) (by decide),
         (h.2.2.2.1 1800 (testProviders (.ok [])) [] (by decide) rfl).1,
         h.2.2.2.2.2.2.1 1799 (testProviders (.error "down")) (by decide),
         (h.2.2.2.2.2.2.2.1 1800 (testProviders (.ok [])) [] (by decide) rfl).1,
         h.2.2.2.2.2.2.2.2.2.2.1 1799 (testProviders (.error "down")) (by decide),
         (h.2.2.2.2.2.2.2.2.2.2.2 1800 (testProviders (.ok [])) [] (by decide) rfl).1⟩

/-- C4: when the provider fetch raises, neither the headlines nor the topic
entry point writes or replaces a cache entry for the key (the whole state is
unchanged), the error propagates to the caller as the wrapped exception
message, and any subsequent call for the same key invokes the fetch again. -/
theorem fetch_failure_not_cached (st : APIState) (t : Nat) (P : Providers)
    (country category topic language : String) (e e' : String)
    (hkey : truthy st.news_api_key = true)
    (hliveH : liveEntry st.headlinesCache (country ++ "-" ++ category) t = none)
    (hfetchH : P.fetchNewsHeadlines country category = .error e)
    (hliveT : liveEntry st.topicsCache (pyLower topic) t = none)
    (hfetchT : P.fetchNewsEverything topic language = .error e') :
    get_top_headlines st t P country category =
      ⟨.error ("Failed to fetch headlines: " ++ e), st, 1⟩ ∧
    get_news_by_topic st t P topic language =
      ⟨.error ("Failed to fetch news about " ++ topic), st, 1⟩ ∧
    (∀ (t₂ : Nat) (P₂ : Providers), t ≤ t₂ →
      (get_top_headlines st t₂ P₂ country category).calls = 1 ∧
      (get_news_by_topic st t₂ P₂ topic language).calls = 1) := by
  refine ⟨by simp [get_top_headlines, hliveH, hkey, hfetchH],
          by simp [get_news_by_topic, hliveT, hkey, hfetchT], ?_⟩
  intro t₂ P₂ hle
  have hH₂ := liveEntry_none_mono _ _ _ _ hle hliveH
  have hT₂ := liveEntry_none_mono _ _ _ _ hle hliveT
  constructor
  · cases hf : P₂.fetchNewsHeadlines country category <;>
      simp [get_top_headlines, hH₂, hkey, hf]
  · cases hf : P₂.fetchNewsEverything topic language <;>
      simp [get_news_by_topic, hT₂, hkey, hf]

/-- Witness for C4: with an empty cache and a provider that raises, both
entry points propagate wrapped errors leaving the state unchanged, and a
retry one second later still performs a provider call. -/
theorem fetch_failure_not_cached_witness :
    get_top_headlines (NewsAgentAPI_init (some "k") none none) 0
        (testProviders (.error "boom")) "us" "" =
      ⟨.error "Failed to fetch headlines: boom",
       NewsAgentAPI_init (some "k") none none, 1⟩ ∧
    get_news_by_topic (NewsAgentAPI_init (some "k") none none) 0
        (testProviders (.error "boom")) "Tech" "en" =
      ⟨.error "Failed to fetch news about Tech",
       NewsAgentAPI_init (some "k") none none, 1⟩ ∧
    (get_top_headlines (NewsAgentAPI_init (some "k") none none) 1
        (testProviders (.error "boom")) "us" "").calls = 1 := by
  have h := fetch_failure_not_cached (NewsAgentAPI_init (some "k") none none) 0
    (testProviders (.error "boom")) "us" "" "Tech" "en" "boom" "boom"
    (by decide) (by decide) rfl (by decide) rfl
  exact ⟨h.1, h.2.1, (h.2.2 1 (testProviders (.error "boom")) (by decide)).1⟩

/-- C8: with neither the NewsAPI credential nor the NYT credential set (and
no live cache entry for the key), `get_top_headlines` returns the empty list
as a successful result — not an error — for every country and category, with
no provider call and the state unchanged. -/
theorem headlines_empty_without_credentials (st : APIState) (now : Nat)
    (P : Providers) (country category : String)
    (h1 : truthy st.news_api_key = false)
    (h2 : truthy st.nyt_api_key = false)
    (hlive : liveEntry st.headlinesCache (country ++ "-" ++ category) now = none) :
    get_top_headlines st now P country category = ⟨.ok [], st, 0⟩ := by
  simp [get_top_headlines, hlive, h1, h2]

/-- Witness for C8 on a freshly initialized keyless state. -/
theorem headlines_empty_without_credentials_witness :
    get_top_headlines (NewsAgentAPI_init none none (some "g")) 7
        (testProviders (.ok [sampleArticle])) "gb" "business" =
      ⟨.ok [], NewsAgentAPI_init none none (some "g"), 0⟩ :=
  headlines_empty_without_credentials (NewsAgentAPI_init none none (some "g")) 7
    (testProviders (.ok [sampleArticle])) "gb" "business"
    (by decide) (by decide) (by decide)

/-- C9: a headlines cache entry is created or replaced only by a successful
provider fetch — any state change implies the call returned `.ok` from one
provider invocation and stamped the entry at the call time; and with no
credentials configured the empty result is returned before the cache-update
step, so the state is unchanged and a later call for the same key takes the
credential-evaluation path again (zero provider calls, empty result) rather
than hitting a cache entry. -/
theorem cache_write_only_on_success (st : APIState) (now : Nat)
    (P : Providers) (country category : String) :
    ((get_top_headlines st now P country category).state ≠ st →
      ∃ hs, (get_top_headlines st now P country category).result = .ok hs ∧
        1 ≤ (get_top_headlines st now P country category).calls ∧
        lookupA (get_top_headlines st now P country category).state.headlinesCache
          (country ++ "-" ++ category) = some ⟨now, hs⟩) ∧
    (truthy st.news_api_key = false → truthy st.nyt_api_key = false →
      liveEntry st.headlinesCache (country ++ "-" ++ category) now = none →
      (get_top_headlines st now P country category).state = st ∧
      ∀ (t₂ : Nat) (P₂ : Providers), now ≤ t₂ →
        get_top_headlines (get_top_headlines st now P country category).state
            t₂ P₂ country category =
          ⟨.ok [], (get_top_headlines st now P country category).state, 0⟩) := by
  constructor
  · intro hne
    cases hl : liveEntry st.headlinesCache (country ++ "-" ++ category) now with
    | some d => exact absurd (by simp [get_top_headlines, hl]) hne
    | none =>
      by_cases hk : truthy st.news_api_key
      · cases hf : P.fetchNewsHeadlines country category with
        | ok hs =>
            exact ⟨hs, by simp [get_top_headlines, hl, hk, hf],
                   by simp [get_top_headlines, hl, hk, hf],
                   by simp [get_top_headlines, hl, hk, hf, lookupA_insertA_self]⟩
        | error e => exact absurd (by simp [get_top_headlines, hl, hk, hf]) hne
      · by_cases hk2 : truthy st.nyt_api_key
        · cases hf : P.fetchNytTop
              (if category = "" then "home" else map_category_to_nyt_section category) with
          | ok hs =>
              exact ⟨hs,
                by simp [get_top_headlines, hl, hk, hk2,
                         fetch_from_nyt_top_stories, hf],
                by simp [get_top_headlines, hl, hk, hk2,
                         fetch_from_nyt_top_stories, hf],
                by simp [get_top_headlines, hl, hk, hk2,
                         fetch_from_nyt_top_stories, hf, lookupA_insertA_self]⟩
          | error e =>
              exact absurd (by simp [get_top_headlines, hl, hk, hk2,
                                     fetch_from_nyt_top_stories, hf]) hne
        · exact absurd (by simp [get_top_headlines, hl, hk, hk2]) hne
  · intro h1 h2 hlive
    have hfirst : get_top_headlines st now P country category = ⟨.ok [], st, 0⟩ := by
      simp [get_top_headlines, hlive, h1, h2]
    refine ⟨by rw [hfirst], ?_⟩
    intro t₂ P₂ hle
    rw [hfirst]
    simp [get_top_headlines, liveEntry_none_mono _ _ _ _ hle hlive, h1, h2]

/-- Witness for C9: a successful keyed fetch changes the state and stamps
the entry; a keyless call at time 5 and a follow-up at time 4000 both return
the empty list with zero provider calls and an unchanged state. -/
theorem cache_write_only_on_success_witness :
    (∃ hs, (get_top_headlines (NewsAgentAPI_init (some "k") none none) 3
              (testProviders (.ok [sampleArticle])) "us" "").result = .ok hs ∧
      1 ≤ (get_top_headlines (NewsAgentAPI_init (some "k") none none) 3
              (testProviders (.ok [sampleArticle])) "us" "").calls ∧
      lookupA (get_top_headlines (NewsAgentAPI_init (some "k") none none) 3
              (testProviders (.ok [sampleArticle])) "us" "").state.headlinesCache
        "us-" = some ⟨3, hs⟩) ∧
    (get_top_headlines (NewsAgentAPI_init none none none) 5
        (testProviders (.ok [sampleArticle])) "us" "").state =
      NewsAgentAPI_init none none none ∧
    get_top_headlines
        (get_top_headlines (NewsAgentAPI_init none none none) 5
          (testProviders (.ok [sampleArticle])) "us" "").state
        4000 (testProviders (.ok [sampleArticle])) "us" "" =
      ⟨.ok [],
       (get_top_headlines (NewsAgentAPI_init none none none) 5
          (testProviders (.ok [sampleArticle])) "us" "").state, 0⟩ := by
  have ha := (cache_write_only_on_success (NewsAgentAPI_init (some "k") none none) 3
    (testProviders (.ok [sampleArticle])) "us" "").1 (by decide)
  have hb := (cache_write_only_on_success (NewsAgentAPI_init none none none) 5
    (testProviders (.ok [sampleArticle])) "us" "").2 (by decide) (by decide) (by decide)
  exact ⟨ha, hb.1, hb.2 4000 (testProviders (.ok [sampleArticle])) (by decide)⟩

/-- The number of values a `filterMap` keeps equals the number of elements
on which the function is defined. -/
theorem length_filterMap_eq_countP {α β : Type} (f : α → Option β) (l : List α) :
    (l.filterMap f).length = l.countP (fun a => (f a).isSome) := by
  induction l with
  | nil => rfl
  | cons a l ih =>
      cases hf : f a <;>
        simp [List.filterMap_cons, hf, List.countP_cons, ih]

/-- C3: `process_request` never raises — for every input it returns a reply
and appends exactly the user turn then the assistant turn, in that order,
to the conversation history; and when the dispatched fetch path raises a
fetch error (headlines, publication, or topic), the returned reply is that
path's fixed apology sentence. -/
theorem process_request_appends_two_turns_and_apologizes (st : AgentState)
    (now : Nat) (P : Providers) (user_input : String) :
    ((process_request st now P user_input).2.conversation_history =
      st.conversation_history ++
        [⟨"user", user_input⟩,
         ⟨"assistant", (process_request st now P user_input).1⟩]) ∧
    (∀ msg : String, detect_intent user_input = .fetch_headlines →
      (get_top_headlines st.api now P
        (if st.user_preferences.region = "global" then "us"
         else st.user_preferences.region) "").result = .error msg →
      (process_request st now P user_input).1 =
        "I'm sorry, I couldn't fetch the latest headlines right now. Please try again later.") ∧
    (∀ (pub msg : String),
      detect_intent user_input = .fetch_specific_publication pub →
      (get_from_publication st.api now P pub).result = .error msg →
      (process_request st now P user_input).1 =
        "I'm sorry, I couldn't fetch articles from " ++ pub ++
          " right now. Please try again later.") ∧
    (∀ (tp msg : String), detect_intent user_input = .fetch_topic tp →
      (get_news_by_topic st.api now P tp "en").result = .error msg →
      (process_request st now P user_input).1 =
        "I'm sorry, I couldn't fetch articles about " ++ tp ++
          " right now. Please try again later.") := by
  refine ⟨?_, ?_, ?_, ?_⟩
  · cases hint : detect_intent user_input <;>
      simp [process_request, hint, handle_headlines_request,
            handle_publication_request, handle_topic_request, discuss_news,
            update_user_preferences]
  · intro msg hint herr
    simp [process_request, hint, handle_headlines_request, herr]
  · intro pub msg hint herr
    simp [process_request, hint, handle_publication_request, herr]
  · intro tp msg hint herr
    simp [process_request, hint, handle_topic_request, herr]

/-- Witness for C3: "latest headlines" with a raising provider yields the
fixed headlines apology and appends exactly (user, assistant) turns. -/
theorem process_request_appends_two_turns_and_apologizes_witness :
    ((process_request (NewsAgent_init (some "k") none none) 0
        (testProviders (.error "boom")) "latest headlines").2.conversation_history =
      [⟨"user", "latest headlines"⟩,
       ⟨"assistant",
        (process_request (NewsAgent_init (some "k") none none) 0
          (testProviders (.error "boom")) "latest headlines").1⟩]) ∧
    (process_request (NewsAgent_init (some "k") none none) 0
        (testProviders (.error "boom")) "latest headlines").1 =
      "I'm sorry, I couldn't fetch the latest headlines right now. Please try again later." := by
  have h := process_request_appends_two_turns_and_apologizes
    (NewsAgent_init (some "k") none none) 0 (testProviders (.error "boom"))
    "latest headlines"
  exact ⟨h.1, h.2.1 "Failed to fetch headlines: boom" (by decide) rfl⟩

/-- C5: on a successful fetch, the headlines reply and the topic reply each
consist of the fixed template sentence followed by the truthy titles of at
most the first 5 articles; with zero usable titles the reply is the fixed
"nothing found" sentence; and the number of titles listed equals the number
of usably-titled articles among the first 5, hence is at most 5. -/
theorem compose_reply_lists_first_five_titles (st : AgentState) (now : Nat)
    (P : Providers) (topic : String) (headlines articles : List Article)
    (hH : (get_top_headlines st.api now P
        (if st.user_preferences.region = "global" then "us"
         else st.user_preferences.region) "").result = .ok headlines)
    (hT : (get_news_by_topic st.api now P topic "en").result = .ok articles) :
    ((headlines.take 5).filterMap usableTitle ≠ [] →
      (handle_headlines_request st now P).1 =
        "Here are today's top headlines:\n" ++
          String.intercalate "\n" ((headlines.take 5).filterMap usableTitle)) ∧
    ((headlines.take 5).filterMap usableTitle = [] →
      (handle_headlines_request st now P).1 =
        "I'm sorry, I couldn't find any headlines at the moment. Please try again later.") ∧
    ((headlines.take 5).filterMap usableTitle).length =
      (headlines.take 5).countP (fun a => (usableTitle a).isSome) ∧
    ((headlines.take 5).filterMap usableTitle).length ≤ 5 ∧
    ((articles.take 5).filterMap usableTitle ≠ [] →
      (handle_topic_request st now P topic).1 =
        "Here are the latest articles about " ++ topic ++ ":\n" ++
          String.intercalate "\n" ((articles.take 5).filterMap usableTitle)) ∧
    ((articles.take 5).filterMap usableTitle = [] →
      (handle_topic_request st now P topic).1 =
        "I'm sorry, I couldn't find any recent articles about " ++ topic ++
          ". Please try another topic or try again later.") ∧
    ((articles.take 5).filterMap usableTitle).length =
      (articles.take 5).countP (fun a => (usableTitle a).isSome) ∧
    ((articles.take 5).filterMap usableTitle).length ≤ 5 := by
  have hlen : ∀ l : List Article, ((l.take 5).filterMap usableTitle).length ≤ 5 := by
    intro l
    rw [length_filterMap_eq_countP]
    calc List.countP (fun a => (usableTitle a).isSome) (l.take 5)
        ≤ (l.take 5).length := List.countP_le_length _
      _ ≤ 5 := by
          rw [List.length_take]
          exact Nat.min_le_left _ _
  refine ⟨?_, ?_, length_filterMap_eq_countP _ _, hlen headlines,
          ?_, ?_, length_filterMap_eq_countP _ _, hlen articles⟩
  · intro hne
    simp [handle_headlines_request, hH, hne]
  · intro hnil
    simp [handle_headlines_request, hH, hnil]
  · intro hne
    simp [handle_topic_request, hT, hne]
  · intro hnil
    simp [handle_topic_request, hT, hnil]

/-- Witness for C5: a mocked provider returning 3 titled articles yields the
template sentence followed by all 3 titles, for both reply paths. -/
theorem compose_reply_lists_first_five_titles_witness :
    (handle_headlines_request (NewsAgent_init (some "k") none none) 0
        (testProviders (.ok [{ title := some "T1" }, { title := some "T2" },
                             { title := some "T3" }]))).1 =
      "Here are today's top headlines:\n" ++
        String.intercalate "\n"
          (([({ title := some "T1" } : Article), { title := some "T2" },
             { title := some "T3" }].take 5).filterMap usableTitle) ∧
    (handle_topic_request (NewsAgent_init (some "k") none none) 0
        (testProviders (.ok [{ title := some "T1" }, { title := some "T2" },
                             { title := some "T3" }])) "tech").1 =
      "Here are the latest articles about " ++ "tech" ++ ":\n" ++
        String.intercalate "\n"
          (([({ title := some "T1" } : Article), { title := some "T2" },
             { title := some "T3" }].take 5).filterMap usableTitle) := by
  have h := compose_reply_lists_first_five_titles
    (NewsAgent_init (some "k") none none) 0
    (testProviders (.ok [{ title := some "T1" }, { title := some "T2" },
                         { title := some "T3" }]))
    "tech"
    [{ title := some "T1" }, { title := some "T2" }, { title := some "T3" }]
    [{ title := some "T1" }, { title := some "T2" }, { title := some "T3" }]
    rfl rfl
  exact ⟨h.1 (by decide), h.2.2.2.2.1 (by decide)⟩

/-- C6: updating preferences is a shallow merge — an update carrying only
`region` changes only the region field (topics, publications, and frequency
unchanged, history untouched), and in general each key present in the update
replaces the prior value while each absent key leaves it untouched. -/
theorem preferences_shallow_merge (st : AgentState) (r : String) (u : PrefUpdate) :
    ((update_user_preferences st { region := some r }).2.user_preferences =
      { st.user_preferences with region := r }) ∧
    ((update_user_preferences st { region := some r }).2.conversation_history =
      st.conversation_history) ∧
    ((update_user_preferences st u).2.user_preferences =
      mergePreferences st.user_preferences u) ∧
    (∀ v, u.region = some v →
      (mergePreferences st.user_preferences u).region = v) ∧
    (u.region = none →
      (mergePreferences st.user_preferences u).region = st.user_preferences.region) ∧
    (∀ v, u.favorite_topics = some v →
      (mergePreferences st.user_preferences u).favorite_topics = v) ∧
    (u.favorite_topics = none →
      (mergePreferences st.user_preferences u).favorite_topics =
        st.user_preferences.favorite_topics) ∧
    (∀ v, u.favorite_publications = some v →
      (mergePreferences st.user_preferences u).favorite_publications = v) ∧
    (u.favorite_publications = none →
      (mergePreferences st.user_preferences u).favorite_publications =
        st.user_preferences.favorite_publications) ∧
    (∀ v, u.update_frequency = some v →
      (mergePreferences st.user_preferences u).update_frequency = v) ∧
    (u.update_frequency = none →
      (mergePreferences st.user_preferences u).update_frequency =
        st.user_preferences.update_frequency) := by
  refine ⟨rfl, rfl, rfl, ?_, ?_, ?_, ?_, ?_, ?_, ?_, ?_⟩ <;>
    first
      | (intro v hv; simp [mergePreferences, hv])
      | (intro hv; simp [mergePreferences, hv])

/-- Witness for C6: a region-only update on defaults changes only `region`,
and a topics-only update replaces topics while leaving the region. -/
theorem preferences_shallow_merge_witness :
    ((update_user_preferences (NewsAgent_init none none none)
        { region := some "uk" }).2.user_preferences =
      { default_preferences with region := "uk" }) ∧
    (mergePreferences default_preferences
        { favorite_topics := some ["ai"] }).favorite_topics = ["ai"] ∧
    (mergePreferences default_preferences
        { favorite_topics := some ["ai"] }).region = default_preferences.region := by
  have h := preferences_shallow_merge (NewsAgent_init none none none) "uk"
    { favorite_topics := some ["ai"] }
  exact ⟨h.1, h.2.2.2.2.2.1 ["ai"] rfl, h.2.2.2.2.1 rfl⟩

/-- C10: for a userId never seen before, `get_history` succeeds, returns the
empty history, and lazily creates a session with default preferences and
empty history; `clear_history` likewise succeeds and returns the fixed
confirmation message rather than failing. -/
theorem unknown_user_history_ops (sessions : List (String × AgentState))
    (news nyt guardian : Option String) (user_id : String)
    (h : lookupA sessions user_id = none) :
    (get_history sessions news nyt guardian user_id).1 = [] ∧
    lookupA (get_history sessions news nyt guardian user_id).2 user_id =
      some (NewsAgent_init news nyt guardian) ∧
    (NewsAgent_init news nyt guardian).user_preferences = default_preferences ∧
    (NewsAgent_init news nyt guardian).conversation_history = [] ∧
    (clear_history sessions news nyt guardian user_id).1 =
      "Conversation history cleared" ∧
    lookupA (clear_history sessions news nyt guardian user_id).2 user_id =
      some (NewsAgent_init news nyt guardian) := by
  refine ⟨?_, ?_, rfl, rfl, rfl, ?_⟩
  · simp [get_history, get_user_session, h, NewsAgent_init]
  · simp [get_history, get_user_session, h, lookupA_insertA_self]
  · simp [clear_history, get_user_session, h, lookupA_insertA_self,
          NewsAgent_init]

/-- Witness for C10 on an empty session store and the unknown user "alice". -/
theorem unknown_user_history_ops_witness :
    (get_history [] (some "k") none none "alice").1 = [] ∧
    lookupA (get_history [] (some "k") none none "alice").2 "alice" =
      some (NewsAgent_init (some "k") none none) ∧
    (clear_history [] (some "k") none none "alice").1 =
      "Conversation history cleared" := by
  have h := unknown_user_history_ops [] (some "k") none none "alice" rfl
  exact ⟨h.1, h.2.1, h.2.2.2.2.1⟩

end NewsAgent
